import Mathlib

/-
Verification of the jiraattach command-line tool.

The development shallowly embeds the two Go source files:
* `JiraAttach` models the current `main.go` (`run`, `loadConfig`,
  `jiraAttachFile`, `createFileBody`, `jiraComment`).
* `JiraAttach.MainGo` models the older variant (`src/main.go`), whose
  `run` inlines the upload and has no comment step.

External effects (filesystem reads, the HTTP transport, and the stdlib
JSON decoding of the attachments array) are supplied by an `Env` record,
so every run of the embedded program is a pure function of its
environment.  Error values in the Go code are `fmt.Errorf` strings, so
errors are modelled as the exact message strings the code builds.
-/

set_option autoImplicit false

namespace JiraAttach

/-- Raw bytes, as read from files and HTTP bodies. -/
abbrev Bytes := List Nat

/-- The decoded configuration file: `{jira_url, auth}`. -/
structure Config where
  jiraURL : String
  auth : String
  deriving Repr, DecidableEq

/-- One element of the upload endpoint's JSON array response. -/
structure Attachment where
  content : String
  filename : String
  deriving Repr, DecidableEq

/-- One part of a multipart/form-data body, at the level the claims
need: its field name, its filename field and its raw content bytes. -/
structure MultipartPart where
  fieldname : String
  filename : String
  content : Bytes
  deriving Repr, DecidableEq

/-- The body of an outgoing HTTP request: either the multipart upload
body or the serialized JSON comment `{"body": msg}`. -/
inductive ReqBody where
  | multipart (parts : List MultipartPart)
  | jsonComment (body : String)
  deriving Repr, DecidableEq

/-- An outgoing HTTP request as the Go code builds it: method, URL,
`Content-Type`, the `X-Atlassian-Token` header, the basic-auth
credentials passed to `SetBasicAuth`, and the body. -/
structure HttpRequest where
  method : String
  url : String
  contentType : String
  atlassianToken : String
  basicUser : String
  basicPass : String
  body : ReqBody
  deriving Repr, DecidableEq

/-- The outcome of `ioutil.ReadAll` on a response body: the bytes read
so far, plus an error message when the read failed partway. -/
structure BodyRead where
  bytes : Bytes
  err : Option String
  deriving Repr, DecidableEq

/-- An HTTP response: status code plus the result of reading its body. -/
structure HttpResponse where
  status : Nat
  bodyRead : BodyRead
  deriving Repr, DecidableEq

/-- The combined outcome of `os.ReadFile` + `json.Unmarshal` on the
config file: a read failure, a decode failure, or a `Config` value. -/
inductive ConfigLoadOutcome where
  | readError (msg : String)
  | parseError (msg : String)
  | ok (cfg : Config)
  deriving Repr, DecidableEq

/-- The external world of one run: the config-file load outcome, the
attachment-file open/read outcome, the random multipart boundary, the
HTTP transport (`http.Client.Do`), and the stdlib JSON decoding of the
upload response body into `[]Attachment`. -/
structure Env where
  configLoad : ConfigLoadOutcome
  attachFile : Except String Bytes
  boundary : String
  transport : HttpRequest → Except String HttpResponse
  decodeAttachments : Bytes → Except String (List Attachment)

/-- Go `fmt`'s `%v` rendering of a `[]byte`: bracketed, space-separated
decimal byte values (`[]byte("no")` prints as `[110 111]`). -/
def goVBytes (b : Bytes) : String :=
  "[" ++ String.intercalate " " (b.map (fun n => toString n)) ++ "]"

/-- Go's `string(b)` conversion of a byte slice (exact on ASCII data,
which is all the development evaluates it on). -/
def goStringOfBytes (b : Bytes) : String :=
  String.mk (b.map Char.ofNat)

/-- Go `strings.Split` with a single-character separator: splits around
every occurrence of `sep` and keeps empty fields. -/
def goSplit (sep : Char) : List Char → List (List Char)
  | [] => [[]]
  | c :: cs =>
    if c = sep then [] :: goSplit sep cs
    else
      match goSplit sep cs with
      | [] => [[c]]
      | p :: ps => (c :: p) :: ps

/-- Go `strings.Contains(s, string(c))` for a one-character substring. -/
def goContains (c : Char) (s : String) : Bool :=
  s.data.contains c

/-- The credential derivation both request builders inline: if `auth`
contains a colon, `strings.Split` it on every colon and take fields 0
and 1 as user and password; otherwise both stay empty. -/
def basicAuthCreds (auth : String) : String × String :=
  if goContains ':' auth then
    let parts := (goSplit ':' auth.data).map String.mk
    (parts.getD 0 "", parts.getD 1 "")
  else ("", "")

/-- `loadConfig`: returns the zero `Config` together with a wrapped
error on a read or decode failure, and the decoded `Config` otherwise.
Mirrors the Go signature `(Config, error)`. -/
def loadConfig : ConfigLoadOutcome → Config × Option String
  | .readError m => (⟨"", ""⟩, some ("unable to read config file: " ++ m))
  | .parseError m => (⟨"", ""⟩, some ("failed to decode config: " ++ m))
  | .ok cfg => (cfg, none)

/-- `createFileBody`: opens the file at `path`; on success produces the
single-part multipart body (field name `file`, filename field `path`,
content the file's bytes) and the `Content-Type` value carrying the
generated boundary. -/
def createFileBody (fileOpen : Except String Bytes) (boundary path : String) :
    Except String (List MultipartPart × String) :=
  match fileOpen with
  | .error e => .error ("error reading attachment, " ++ path ++ ": " ++ e ++ "\n")
  | .ok contents =>
      .ok ([{ fieldname := "file", filename := path, content := contents }],
        "multipart/form-data; boundary=" ++ boundary)

/-- The POST request `jiraAttachFile` builds for
`{baseurl}/rest/api/2/issue/{key}/attachments`. -/
def uploadRequest (baseurl auth key contentType : String)
    (parts : List MultipartPart) : HttpRequest :=
  { method := "POST"
    url := baseurl ++ "/rest/api/2/issue/" ++ key ++ "/attachments"
    contentType := contentType
    atlassianToken := "nocheck"
    basicUser := (basicAuthCreds auth).1
    basicPass := (basicAuthCreds auth).2
    body := .multipart parts }

/-- `jiraAttachFile`: builds the multipart body, sends the upload
request, and interprets the response (200 → decode `[]Attachment`,
reject empty arrays, return the first record; other statuses → error
carrying the status code and the `%v` rendering of the body bytes).
Returns the result together with the request handed to the transport,
`none` when the transport was never invoked.  (`http.NewRequest`
failures, possible only for unparsable URLs, are not modelled.) -/
def jiraAttachFile (env : Env) (baseurl auth key filepath : String) :
    Except String Attachment × Option HttpRequest :=
  match createFileBody env.attachFile env.boundary filepath with
  | .error e => (.error e, none)
  | .ok (parts, contentType) =>
    let req := uploadRequest baseurl auth key contentType parts
    match env.transport req with
    | .error e => (.error ("error sending request: " ++ e ++ "\n"), some req)
    | .ok resp =>
      if resp.status = 200 then
        match resp.bodyRead.err with
        | some e =>
          (.error ("error reading response body: " ++ e ++ "\n"
            ++ goStringOfBytes resp.bodyRead.bytes), some req)
        | none =>
          match env.decodeAttachments resp.bodyRead.bytes with
          | .error e => (.error e, some req)
          | .ok attachments =>
            if attachments.length < 1 then
              (.error "failed to add attachment for unknown reason", some req)
            else
              (.ok (attachments.headD ⟨"", ""⟩), some req)
      else
        match resp.bodyRead.err with
        | some e =>
          (.error ("error reading error-response body: " ++ e ++ "\n"
            ++ goStringOfBytes resp.bodyRead.bytes), some req)
        | none =>
          (.error ("failed to add attachment, status_code=" ++ toString resp.status
            ++ " respbody=" ++ goVBytes resp.bodyRead.bytes), some req)

/-- The POST request `jiraComment` builds for
`{baseurl}/rest/api/2/issue/{key}/comment`, with the serialized
`{"body": msg}` payload. -/
def commentRequest (baseurl auth key msg : String) : HttpRequest :=
  { method := "POST"
    url := baseurl ++ "/rest/api/2/issue/" ++ key ++ "/comment"
    contentType := "application/json"
    atlassianToken := "nocheck"
    basicUser := (basicAuthCreds auth).1
    basicPass := (basicAuthCreds auth).2
    body := .jsonComment msg }

/-- `jiraComment`: sends the comment request; 201 is success, any other
status yields an error carrying the status code and the `%v` rendering
of the body bytes.  Returns the error (if any) together with the
request handed to the transport. -/
def jiraComment (env : Env) (baseurl auth key msg : String) :
    Option String × HttpRequest :=
  let req := commentRequest baseurl auth key msg
  match env.transport req with
  | .error e => (some ("error sending request: " ++ e ++ "\n"), req)
  | .ok resp =>
    if resp.status = 201 then (none, req)
    else
      match resp.bodyRead.err with
      | some e =>
        (some ("error reading error-response body: " ++ e ++ "\n"
          ++ goStringOfBytes resp.bodyRead.bytes), req)
      | none =>
        (some ("failed to add comment, status_code=" ++ toString resp.status
          ++ " respbody=" ++ goVBytes resp.bodyRead.bytes), req)

/-- The outcome of one run: the error returned (or `none` on success),
and the upload and comment requests issued, `none` when the respective
transport call never happened. -/
structure RunResult where
  outcome : Option String
  uploadReq : Option HttpRequest
  commentReq : Option HttpRequest
  deriving Repr

/-- `run`, after flag parsing: load the config, upload the attachment,
then (unless `-no-comment`) post the linking comment.  As in the
source, the error returned by `loadConfig` is bound to `err` but never
checked before `err` is overwritten by the `jiraAttachFile` call, so a
failed config load falls through with the zero `Config`. -/
def run (env : Env) (key filepath : String) (nocomment : Bool) : RunResult :=
  let config := (loadConfig env.configLoad).1
  match jiraAttachFile env config.jiraURL config.auth key filepath with
  | (.error e, up) => { outcome := some e, uploadReq := up, commentReq := none }
  | (.ok attachment, up) =>
    if nocomment then { outcome := none, uploadReq := up, commentReq := none }
    else
      let msg := "File attached: [" ++ attachment.filename ++ "|"
        ++ attachment.content ++ "]"
      let (cerr, creq) := jiraComment env config.jiraURL config.auth key msg
      { outcome := cerr, uploadReq := up, commentReq := some creq }

/-- `main`: exit 0 when `run` returns nil, exit 1 otherwise. -/
def exitCode (r : RunResult) : Nat :=
  match r.outcome with
  | none => 0
  | some _ => 1

namespace MainGo

/-- The older variant's config handling: `os.Open` followed by a
streaming JSON decode. -/
inductive ConfigOutcome where
  | openError
  | decodeError (msg : String)
  | ok (cfg : Config)
  deriving Repr, DecidableEq

/-- The external world of one run of the older variant. -/
structure Env where
  configPath : String
  config : ConfigOutcome
  attachFile : Except String Bytes
  boundary : String
  transport : HttpRequest → Except String HttpResponse

/-- The outcome of one run of the older variant: the error returned,
the upload request issued (if the transport was reached), and the lines
it printed to standard error. -/
structure RunResult where
  outcome : Option String
  uploadReq : Option HttpRequest
  stderrOut : List String
  deriving Repr

/-- `run` of the older `src/main.go`: load the config (errors checked
here), open the attachment file, build the single-part multipart body
inline, send the upload request, and switch on the status: 200 does
nothing; any other status prints the status code to standard error,
reads the body, and — when that read succeeds — falls out of the switch
so that `run` returns nil. -/
def run (env : Env) (key filepath : String) : RunResult :=
  match env.config with
  | .openError =>
    { outcome := some ("unable to open config file, " ++ env.configPath)
      uploadReq := none, stderrOut := [] }
  | .decodeError e =>
    { outcome := some ("failed to read config file, " ++ env.configPath
        ++ ": " ++ e ++ "\n")
      uploadReq := none, stderrOut := [] }
  | .ok config =>
    match env.attachFile with
    | .error e =>
      { outcome := some ("error reading attachment, " ++ filepath ++ ": " ++ e ++ "\n")
        uploadReq := none, stderrOut := [] }
    | .ok contents =>
      let parts : List MultipartPart :=
        [{ fieldname := "file", filename := filepath, content := contents }]
      let req := uploadRequest config.jiraURL config.auth key
        ("multipart/form-data; boundary=" ++ env.boundary) parts
      match env.transport req with
      | .error e =>
        { outcome := some ("error sending request: " ++ e ++ "\n")
          uploadReq := some req, stderrOut := [] }
      | .ok resp =>
        if resp.status = 200 then
          { outcome := none, uploadReq := some req, stderrOut := [] }
        else
          let line := "request failed with status code, " ++ toString resp.status ++ "\n"
          match resp.bodyRead.err with
          | some e =>
            { outcome := some ("error reading error-response body: " ++ e ++ "\n"
                ++ goStringOfBytes resp.bodyRead.bytes)
              uploadReq := some req, stderrOut := [line] }
          | none =>
            { outcome := none, uploadReq := some req, stderrOut := [line] }

/-- `main` of the older variant: exit 0 when `run` returns nil. -/
def exitCode (r : RunResult) : Nat :=
  match r.outcome with
  | none => 0
  | some _ => 1

end MainGo

/-- Text before the first colon of a character list (the claimed
username derivation). -/
def beforeColon : List Char → List Char
  | [] => []
  | c :: cs => if c = ':' then [] else c :: beforeColon cs

/-- Text strictly after the first colon of a character list; the whole
list has no colon-free prefix removed when no colon occurs, in which
case the result is empty. -/
def fromAfterColon : List Char → List Char
  | [] => []
  | c :: cs => if c = ':' then cs else fromAfterColon cs

/-- Follows the claim's words: the password is the text after the first
colon of the auth string. -/
def specAfterFirstColon (s : String) : String :=
  String.mk (fromAfterColon s.data)

/-- Follows the claim's words: a byte sequence surfaced "as text" means
its character decoding appears in the message. -/
def bytesAsText (b : Bytes) : String :=
  String.mk (b.map Char.ofNat)

theorem goSplit_ne_nil (sep : Char) (cs : List Char) : goSplit sep cs ≠ [] := by
  cases cs with
  | nil => simp [goSplit]
  | cons c cs =>
    by_cases h : c = sep
    · simp [goSplit, h]
    · simp only [goSplit, if_neg h]
      cases goSplit sep cs <;> simp

theorem goSplit_getD_zero (cs : List Char) :
    (goSplit ':' cs).getD 0 [] = beforeColon cs := by
  induction cs with
  | nil => rfl
  | cons c cs ih =>
    by_cases h : c = ':'
    · simp [goSplit, beforeColon, h]
    · rcases hg : goSplit ':' cs with _ | ⟨p, ps⟩
      · exact absurd hg (goSplit_ne_nil ':' cs)
      · rw [hg] at ih
        simp only [goSplit, if_neg h, hg, beforeColon]
        simp only [List.getD_cons_zero] at ih ⊢
        rw [ih]

theorem goSplit_getD_one (cs : List Char) :
    (goSplit ':' cs).getD 1 [] = beforeColon (fromAfterColon cs) := by
  induction cs with
  | nil => rfl
  | cons c cs ih =>
    by_cases h : c = ':'
    · simp only [goSplit, if_pos h, fromAfterColon, h, if_pos rfl]
      exact goSplit_getD_zero cs
    · rcases hg : goSplit ':' cs with _ | ⟨p, ps⟩
      · exact absurd hg (goSplit_ne_nil ':' cs)
      · rw [hg] at ih
        simp only [goSplit, if_neg h, hg, fromAfterColon]
        exact ih

theorem getD_map_mk (l : List (List Char)) (i : Nat) :
    (l.map String.mk).getD i "" = String.mk (l.getD i []) := by
  induction l generalizing i with
  | nil => cases i <;> rfl
  | cons p ps ih =>
    cases i with
    | zero => rfl
    | succ j => exact ih j

/-- An environment whose config file is missing: `loadConfig` reports a
read error, the attachment file is readable, and the upload endpoint
answers 404. -/
def envC1 : Env :=
  { configLoad := .readError "open config.json: no such file or directory"
    attachFile := .ok [104, 105]
    boundary := "bnd"
    transport := fun _ => .ok { status := 404, bodyRead := { bytes := [122, 113], err := none } }
    decodeAttachments := fun _ => .ok [] }

/-- C1: the claim says a run with a missing config file fails with the
config-read error before any network call.  The code instead drops the
error `loadConfig` returns (it is bound to `err` but overwritten,
unchecked, by the `jiraAttachFile` call): in this run `loadConfig`
reports a read error, yet the upload request is still handed to the
HTTP client and the run's error is the upload rejection, not the config
error. -/
theorem C1_run_ignores_config_error :
    (loadConfig envC1.configLoad).2 =
        some "unable to read config file: open config.json: no such file or directory" ∧
      (run envC1 "PROJ-12" "report.txt" false).uploadReq.isSome = true ∧
      (run envC1 "PROJ-12" "report.txt" false).outcome =
        some "failed to add attachment, status_code=404 respbody=[122 113]" := by
  refine ⟨rfl, rfl, ?_⟩
  decide

/-- C2 counterexample: for the auth string `a:b:c` the code derives the
password `b` (field 1 of splitting on every colon), not the text after
the first colon, which is `b:c`. -/
theorem C2_counterexample :
    (basicAuthCreds "a:b:c").2 ≠ specAfterFirstColon "a:b:c" := by
  decide

/-- C2 (amended): for every auth string containing a colon the username
is the text before the first colon and the password is the text
strictly between the first and the second colon (the second field of
`strings.Split` on every colon) — equal to the whole text after the
first colon only when at most one more colon follows; without a colon
both credentials are empty. -/
theorem C2_amended (auth : String) :
    basicAuthCreds auth =
      if goContains ':' auth then
        (String.mk (beforeColon auth.data),
          String.mk (beforeColon (fromAfterColon auth.data)))
      else ("", "") := by
  unfold basicAuthCreds
  by_cases h : goContains ':' auth
  · simp only [if_pos h, getD_map_mk, goSplit_getD_zero, goSplit_getD_one]
  · simp only [if_neg h]

/-- C8: for every readable file, `createFileBody` produces exactly one
multipart part, with field name `file`, the full given path as the
filename field, and the raw file bytes as content, together with the
boundary-carrying `Content-Type` value. -/
theorem C8_createFileBody_single_part (contents : Bytes) (boundary path : String) :
    createFileBody (.ok contents) boundary path =
      .ok ([{ fieldname := "file", filename := path, content := contents }],
        "multipart/form-data; boundary=" ++ boundary) := rfl

/-- C9: when the comment endpoint answers, `jiraComment` succeeds (no
error) exactly when the status is 201; on any other status it fails
with the error carrying the status code and the response body. -/
theorem C9_comment_iff_201 (env : Env) (baseurl auth key msg : String)
    (status : Nat) (body : Bytes)
    (htr : ∀ r, env.transport r =
      .ok { status := status, bodyRead := { bytes := body, err := none } }) :
    ((jiraComment env baseurl auth key msg).1 = none ↔ status = 201) ∧
      (status ≠ 201 →
        (jiraComment env baseurl auth key msg).1 =
          some ("failed to add comment, status_code=" ++ toString status
            ++ " respbody=" ++ goVBytes body)) := by
  simp only [jiraComment]
  rw [htr]
  by_cases h : status = 201
  · subst h
    simp
  · simp [h]

/-- An environment whose comment endpoint answers 404 with body bytes
spelling `zq`. -/
def envC9 : Env :=
  { configLoad := .ok ⟨"https://x.test", "bob:pw"⟩
    attachFile := .ok []
    boundary := "bnd"
    transport := fun _ => .ok { status := 404, bodyRead := { bytes := [122, 113], err := none } }
    decodeAttachments := fun _ => .ok [] }

/-- Witness for C9 at a concrete run: a 404 answer makes `jiraComment`
fail with the status code and body in the error. -/
theorem C9_comment_iff_201_witness :
    (jiraComment envC9 "https://x.test" "bob:pw" "PROJ-12" "hello").1 =
      some ("failed to add comment, status_code=" ++ toString (404 : Nat)
        ++ " respbody=" ++ goVBytes [122, 113]) :=
  (C9_comment_iff_201 envC9 "https://x.test" "bob:pw" "PROJ-12" "hello" 404 [122, 113]
    (fun _ => rfl)).2 (by decide)

/-- C3: when the attachment file is readable and the upload endpoint
answers 200 with a body that decodes to an empty `[]Attachment`, the
run fails with the empty-response error and the comment request is
never issued. -/
theorem C3_empty_array_fails_and_no_comment (env : Env) (key path : String)
    (nocomment : Bool) (contents body : Bytes)
    (hfile : env.attachFile = .ok contents)
    (htr : ∀ r, env.transport r =
      .ok { status := 200, bodyRead := { bytes := body, err := none } })
    (hdec : env.decodeAttachments body = .ok []) :
    (run env key path nocomment).outcome =
        some "failed to add attachment for unknown reason" ∧
      (run env key path nocomment).commentReq = none := by
  have hatt : ∀ baseurl auth,
      jiraAttachFile env baseurl auth key path =
        (.error "failed to add attachment for unknown reason",
          some (uploadRequest baseurl auth key
            ("multipart/form-data; boundary=" ++ env.boundary)
            [{ fieldname := "file", filename := path, content := contents }])) := by
    intro baseurl auth
    simp [jiraAttachFile, createFileBody, hfile, htr, hdec]
  constructor <;> simp [run, hatt]

/-- An environment for C3's witness: upload answers 200 with the bytes
of `[]`, which decode to an empty attachment list. -/
def envC3 : Env :=
  { configLoad := .ok ⟨"https://x.test", "bob:pw"⟩
    attachFile := .ok [104, 105]
    boundary := "bnd"
    transport := fun _ => .ok { status := 200, bodyRead := { bytes := [91, 93], err := none } }
    decodeAttachments := fun _ => .ok [] }

/-- Witness for C3 at a concrete run. -/
theorem C3_empty_array_witness :
    (run envC3 "PROJ-12" "report.txt" false).outcome =
        some "failed to add attachment for unknown reason" ∧
      (run envC3 "PROJ-12" "report.txt" false).commentReq = none :=
  C3_empty_array_fails_and_no_comment envC3 "PROJ-12" "report.txt" false
    [104, 105] [91, 93] rfl (fun _ => rfl) rfl

/-- C4 (amended): when the upload endpoint answers any status other
than 200 and its body is read without error, the run fails with an
error carrying the exact status code and the response body rendered as
Go's `%v` of a byte slice (bracketed space-separated decimal byte
values) rather than as text, and the comment request is never
issued. -/
theorem C4_non200_fails_with_status_and_byte_rendering (env : Env)
    (key path : String) (nocomment : Bool) (contents body : Bytes) (status : Nat)
    (hfile : env.attachFile = .ok contents)
    (htr : ∀ r, env.transport r =
      .ok { status := status, bodyRead := { bytes := body, err := none } })
    (hstatus : status ≠ 200) :
    (run env key path nocomment).outcome =
        some ("failed to add attachment, status_code=" ++ toString status
          ++ " respbody=" ++ goVBytes body) ∧
      (run env key path nocomment).commentReq = none := by
  have hatt : ∀ baseurl auth,
      jiraAttachFile env baseurl auth key path =
        (.error ("failed to add attachment, status_code=" ++ toString status
            ++ " respbody=" ++ goVBytes body),
          some (uploadRequest baseurl auth key
            ("multipart/form-data; boundary=" ++ env.boundary)
            [{ fieldname := "file", filename := path, content := contents }])) := by
    intro baseurl auth
    simp [jiraAttachFile, createFileBody, hfile, htr, hstatus]
  constructor <;> simp [run, hatt]

/-- An environment whose upload endpoint answers 403 with body bytes
spelling `zq`. -/
def envC4 : Env :=
  { configLoad := .ok ⟨"https://x.test", "bob:pw"⟩
    attachFile := .ok [104, 105]
    boundary := "bnd"
    transport := fun _ => .ok { status := 403, bodyRead := { bytes := [122, 113], err := none } }
    decodeAttachments := fun _ => .ok [] }

/-- C4 counterexample: in this run the upload endpoint answers 403 with
body bytes spelling the text `zq`, yet the error the run fails with
does not contain `zq` anywhere — the body is surfaced as a decimal
byte-slice rendering, not as text, refuting the claim as stated. -/
theorem C4_counterexample :
    (run envC4 "PROJ-12" "report.txt" false).outcome =
        some "failed to add attachment, status_code=403 respbody=[122 113]" ∧
      ¬ (bytesAsText [122, 113]).data <:+:
        "failed to add attachment, status_code=403 respbody=[122 113]".data := by
  constructor
  · decide
  · decide

/-- Witness for the amended C4 at a concrete run. -/
theorem C4_non200_witness :
    (run envC4 "PROJ-12" "report.txt" false).outcome =
        some ("failed to add attachment, status_code=" ++ toString (403 : Nat)
          ++ " respbody=" ++ goVBytes [122, 113]) ∧
      (run envC4 "PROJ-12" "report.txt" false).commentReq = none :=
  C4_non200_fails_with_status_and_byte_rendering envC4 "PROJ-12" "report.txt" false
    [104, 105] [122, 113] 403 rfl (fun _ => rfl) (by decide)

/-- C5: when the upload endpoint answers 200 with a body decoding to a
non-empty attachment list, `jiraAttachFile` returns the first record,
and the comment request the run then issues (comments not skipped) has
body exactly `{"body": "File attached: [<filename>|<content-url>]"}`
built from that record. -/
theorem C5_first_attachment_and_comment_body (env : Env) (key path : String)
    (contents body : Bytes) (a : Attachment) (rest : List Attachment)
    (hfile : env.attachFile = .ok contents)
    (htr : ∀ r, env.transport r =
      .ok { status := 200, bodyRead := { bytes := body, err := none } })
    (hdec : env.decodeAttachments body = .ok (a :: rest)) :
    (∀ baseurl auth, (jiraAttachFile env baseurl auth key path).1 = .ok a) ∧
      Option.map (fun r => r.body) (run env key path false).commentReq =
        some (ReqBody.jsonComment
          ("File attached: [" ++ a.filename ++ "|" ++ a.content ++ "]")) := by
  have hatt : ∀ baseurl auth,
      jiraAttachFile env baseurl auth key path =
        (.ok a, some (uploadRequest baseurl auth key
          ("multipart/form-data; boundary=" ++ env.boundary)
          [{ fieldname := "file", filename := path, content := contents }])) := by
    intro baseurl auth
    simp [jiraAttachFile, createFileBody, hfile, htr, hdec]
  constructor
  · intro baseurl auth
    rw [hatt]
  · simp [run, hatt, jiraComment, htr, commentRequest]

/-- An environment for C5's witness: the upload response decodes to one
attachment record. -/
def envC5 : Env :=
  { configLoad := .ok ⟨"https://x.test", "bob:pw"⟩
    attachFile := .ok [104, 105]
    boundary := "bnd"
    transport := fun _ => .ok { status := 200, bodyRead := { bytes := [91, 93], err := none } }
    decodeAttachments := fun _ =>
      .ok [{ content := "https://x.test/secure/attachment/1/report.txt"
             filename := "report.txt" }] }

/-- Witness for C5 at a concrete run. -/
theorem C5_first_attachment_witness :
    (jiraAttachFile envC5 "https://x.test" "bob:pw" "PROJ-12" "report.txt").1 =
        .ok { content := "https://x.test/secure/attachment/1/report.txt"
              filename := "report.txt" } ∧
      Option.map (fun r => r.body) (run envC5 "PROJ-12" "report.txt" false).commentReq =
        some (ReqBody.jsonComment
          ("File attached: [" ++ "report.txt" ++ "|"
            ++ "https://x.test/secure/attachment/1/report.txt" ++ "]")) :=
  ⟨(C5_first_attachment_and_comment_body envC5 "PROJ-12" "report.txt" [104, 105] [91, 93]
      { content := "https://x.test/secure/attachment/1/report.txt", filename := "report.txt" }
      [] rfl (fun _ => rfl) rfl).1 "https://x.test" "bob:pw",
    (C5_first_attachment_and_comment_body envC5 "PROJ-12" "report.txt" [104, 105] [91, 93]
      { content := "https://x.test/secure/attachment/1/report.txt", filename := "report.txt" }
      [] rfl (fun _ => rfl) rfl).2⟩

/-- C6: whenever the upload step succeeds and `-no-comment` is set, the
run succeeds (exit code 0) and the comment request is never issued. -/
theorem C6_nocomment_success (env : Env) (key path : String) (a : Attachment)
    (h : (jiraAttachFile env (loadConfig env.configLoad).1.jiraURL
      (loadConfig env.configLoad).1.auth key path).1 = .ok a) :
    exitCode (run env key path true) = 0 ∧
      (run env key path true).commentReq = none := by
  rcases hj : jiraAttachFile env (loadConfig env.configLoad).1.jiraURL
      (loadConfig env.configLoad).1.auth key path with ⟨res, up⟩
  rw [hj] at h
  simp only at h
  subst h
  constructor <;> simp [run, exitCode, hj]

/-- An environment for C6's witness: a successful upload. -/
def envC6 : Env :=
  { configLoad := .ok ⟨"https://x.test", "bob:pw"⟩
    attachFile := .ok [104, 105]
    boundary := "bnd"
    transport := fun _ => .ok { status := 200, bodyRead := { bytes := [91, 93], err := none } }
    decodeAttachments := fun _ =>
      .ok [{ content := "https://x.test/secure/attachment/1/report.txt"
             filename := "report.txt" }] }

/-- Witness for C6 at a concrete run. -/
theorem C6_nocomment_witness :
    exitCode (run envC6 "PROJ-12" "report.txt" true) = 0 ∧
      (run envC6 "PROJ-12" "report.txt" true).commentReq = none :=
  C6_nocomment_success envC6 "PROJ-12" "report.txt"
    { content := "https://x.test/secure/attachment/1/report.txt", filename := "report.txt" }
    rfl

/-- C7: when the attachment file cannot be opened, the run fails with
the file-open error and neither the upload nor the comment request is
ever issued. -/
theorem C7_file_open_error_no_network (env : Env) (key path : String)
    (nocomment : Bool) (e : String)
    (hfile : env.attachFile = .error e) :
    (run env key path nocomment).outcome =
        some ("error reading attachment, " ++ path ++ ": " ++ e ++ "\n") ∧
      (run env key path nocomment).uploadReq = none ∧
      (run env key path nocomment).commentReq = none := by
  have hatt : ∀ baseurl auth,
      jiraAttachFile env baseurl auth key path =
        (.error ("error reading attachment, " ++ path ++ ": " ++ e ++ "\n"), none) := by
    intro baseurl auth
    simp [jiraAttachFile, createFileBody, hfile]
  refine ⟨?_, ?_, ?_⟩ <;> simp [run, hatt]

/-- An environment for C7's witness: the attachment file is missing. -/
def envC7 : Env :=
  { configLoad := .ok ⟨"https://x.test", "bob:pw"⟩
    attachFile := .error "open report.txt: no such file or directory"
    boundary := "bnd"
    transport := fun _ => .ok { status := 200, bodyRead := { bytes := [91, 93], err := none } }
    decodeAttachments := fun _ => .ok [] }

/-- Witness for C7 at a concrete run. -/
theorem C7_file_open_witness :
    (run envC7 "PROJ-12" "report.txt" false).outcome =
        some ("error reading attachment, " ++ "report.txt" ++ ": "
          ++ "open report.txt: no such file or directory" ++ "\n") ∧
      (run envC7 "PROJ-12" "report.txt" false).uploadReq = none ∧
      (run envC7 "PROJ-12" "report.txt" false).commentReq = none :=
  C7_file_open_error_no_network envC7 "PROJ-12" "report.txt" false
    "open report.txt: no such file or directory" rfl

/-- C10: in the older `src/main.go` variant, a non-200 upload answer
whose body is read successfully makes `run` return nil — the process
exits 0 — after printing only the status-code line to standard error;
the rejection is never converted into an error return. -/
theorem C10_main_go_non200_returns_nil (env : MainGo.Env) (key path : String)
    (cfg : Config) (contents body : Bytes) (status : Nat)
    (hcfg : env.config = .ok cfg)
    (hfile : env.attachFile = .ok contents)
    (htr : ∀ r, env.transport r =
      .ok { status := status, bodyRead := { bytes := body, err := none } })
    (hstatus : status ≠ 200) :
    (MainGo.run env key path).outcome = none ∧
      MainGo.exitCode (MainGo.run env key path) = 0 ∧
      (MainGo.run env key path).stderrOut =
        ["request failed with status code, " ++ toString status ++ "\n"] := by
  refine ⟨?_, ?_, ?_⟩ <;>
    simp [MainGo.run, MainGo.exitCode, hcfg, hfile, htr, hstatus]

/-- An environment for C10's witness: the older variant gets a 403
answer with a readable body. -/
def envC10 : MainGo.Env :=
  { configPath := "config.json"
    config := .ok ⟨"https://x.test", "bob:pw"⟩
    attachFile := .ok [104, 105]
    boundary := "bnd"
    transport := fun _ => .ok { status := 403, bodyRead := { bytes := [122, 113], err := none } } }

/-- Witness for C10 at a concrete run. -/
theorem C10_main_go_witness :
    (MainGo.run envC10 "PROJ-12" "report.txt").outcome = none ∧
      MainGo.exitCode (MainGo.run envC10 "PROJ-12" "report.txt") = 0 ∧
      (MainGo.run envC10 "PROJ-12" "report.txt").stderrOut =
        ["request failed with status code, " ++ toString (403 : Nat) ++ "\n"] :=
  C10_main_go_non200_returns_nil envC10 "PROJ-12" "report.txt"
    ⟨"https://x.test", "bob:pw"⟩ [104, 105] [122, 113] 403 rfl rfl (fun _ => rfl)
    (by decide)

end JiraAttach
